import Mathlib

/-!
Verification development for the AWS KMS keymanager plugin
(`pkg/server/plugin/keymanager/awskms/awskms.go`).

The Go source is shallowly embedded below:
- proto enums (`keymanager.KeyType`, `keymanager.HashAlgorithm`) become closed
  inductive types with the constructors the source mentions;
- AWS SDK string-typed enums (`types.CustomerMasterKeySpec`,
  `types.SigningAlgorithmSpec`) become `String` with the SDK's literal values;
- byte slices become `List Nat`; a nil byte slice and an empty one are both
  represented by `[]` (the source only ever checks nil-or-empty);
- nilable pointers become `Option`; SDK response fields that the source
  dereferences unconditionally (and that AWS populates on every success) are
  embedded as plain fields;
- the Go map `entries` becomes an association list with map-like insert;
- fallible calls return `Except String`; the KMS client is a record of
  response functions, and each plugin method additionally returns the list of
  remote calls it issued (a `goroutine`'s fire-and-forget call is reported in
  a separate `detached` list).
-/

namespace keymanager

/-- Proto enum `keymanager.KeyType`, restricted to the constructors named by
the source file. -/
inductive KeyType where
  | UNSPECIFIED_KEY_TYPE
  | EC_P256
  | EC_P384
  | RSA_1024
  | RSA_2048
  | RSA_4096
deriving DecidableEq

/-- Proto enum `keymanager.HashAlgorithm`, restricted to the constructors named
by the source file. -/
inductive HashAlgorithm where
  | UNSPECIFIED_HASH_ALGORITHM
  | SHA256
  | SHA384
  | SHA512
deriving DecidableEq

/-- Proto message `keymanager.PublicKey`.  The Go field `Type` is renamed to
`Typ` because `Type` is a Lean keyword. -/
structure PublicKey where
  Id : String
  Typ : KeyType
  PkixData : List Nat
deriving DecidableEq

/-- Proto message `keymanager.PSSOptions` (the salt length is carried but never
read by the plugin: KMS fixes the salt to the hash size). -/
structure PssOptions where
  HashAlgorithm : keymanager.HashAlgorithm
  SaltLength : Int
deriving DecidableEq

end keymanager

namespace awskms

/-- Go constant `aliasPrefix = "alias/"`. -/
def aliasPrefixConst : String := "alias/"

/-- Go constant `defaultKeyPrefix = "SPIRE_SERVER_KEY/"`. -/
def defaultKeyPrefixConst : String := "SPIRE_SERVER_KEY/"

/-- AWS SDK string enum `types.CustomerMasterKeySpec`. -/
abbrev CustomerMasterKeySpec := String

def CustomerMasterKeySpecRsa2048 : CustomerMasterKeySpec := "RSA_2048"
def CustomerMasterKeySpecRsa4096 : CustomerMasterKeySpec := "RSA_4096"
def CustomerMasterKeySpecEccNistP256 : CustomerMasterKeySpec := "ECC_NIST_P256"
def CustomerMasterKeySpecEccNistP384 : CustomerMasterKeySpec := "ECC_NIST_P384"

/-- AWS SDK string enum `types.SigningAlgorithmSpec`. -/
abbrev SigningAlgorithmSpec := String

def SigningAlgorithmSpecEcdsaSha256 : SigningAlgorithmSpec := "ECDSA_SHA_256"
def SigningAlgorithmSpecEcdsaSha384 : SigningAlgorithmSpec := "ECDSA_SHA_384"
def SigningAlgorithmSpecRsassaPkcs1V15Sha256 : SigningAlgorithmSpec := "RSASSA_PKCS1_V1_5_SHA_256"
def SigningAlgorithmSpecRsassaPkcs1V15Sha384 : SigningAlgorithmSpec := "RSASSA_PKCS1_V1_5_SHA_384"
def SigningAlgorithmSpecRsassaPkcs1V15Sha512 : SigningAlgorithmSpec := "RSASSA_PKCS1_V1_5_SHA_512"
def SigningAlgorithmSpecRsassaPssSha256 : SigningAlgorithmSpec := "RSASSA_PSS_SHA_256"
def SigningAlgorithmSpecRsassaPssSha384 : SigningAlgorithmSpec := "RSASSA_PSS_SHA_384"
def SigningAlgorithmSpecRsassaPssSha512 : SigningAlgorithmSpec := "RSASSA_PSS_SHA_512"

/-- AWS SDK string enum value `types.KeyUsageTypeSignVerify`. -/
def KeyUsageTypeSignVerify : String := "SIGN_VERIFY"

/-- AWS SDK string enum value `types.MessageTypeDigest`. -/
def MessageTypeDigest : String := "DIGEST"

/-- Boolean success test for `Except` results (an error, whatever its message,
maps to `false`). -/
def isOkE {α : Type} : Except String α → Bool
  | .ok _ => true
  | .error _ => false

/-! ## Algorithm mapper -/

/-- The tagged union behind Go's `req.SignerOpts` (a proto `oneof`, surfaced in
Go as an interface with the two wrapper types
`SignDataRequest_HashAlgorithm` and `SignDataRequest_PssOptions`; the latter
carries a nilable pointer). -/
inductive SignerOpts where
  | hashAlgorithmVariant (h : keymanager.HashAlgorithm)
  | pssOptionsVariant (o : Option keymanager.PssOptions)
deriving DecidableEq

/-- The switch at the bottom of `signingAlgorithmForKMS`, after the signer
options have been destructured into a hash algorithm and a PSS flag. -/
def signingAlgorithmCore (keyType : keymanager.KeyType)
    (hashAlgo : keymanager.HashAlgorithm) (isPSS : Bool) :
    Except String SigningAlgorithmSpec :=
  let isRSA : Prop :=
    keyType = keymanager.KeyType.RSA_2048 ∨ keyType = keymanager.KeyType.RSA_4096
  if hashAlgo = keymanager.HashAlgorithm.UNSPECIFIED_HASH_ALGORITHM then
    .error "hash algorithm is required"
  else if keyType = keymanager.KeyType.EC_P256 ∧ hashAlgo = keymanager.HashAlgorithm.SHA256 then
    .ok SigningAlgorithmSpecEcdsaSha256
  else if keyType = keymanager.KeyType.EC_P384 ∧ hashAlgo = keymanager.HashAlgorithm.SHA384 then
    .ok SigningAlgorithmSpecEcdsaSha384
  else if isRSA ∧ isPSS = false ∧ hashAlgo = keymanager.HashAlgorithm.SHA256 then
    .ok SigningAlgorithmSpecRsassaPkcs1V15Sha256
  else if isRSA ∧ isPSS = false ∧ hashAlgo = keymanager.HashAlgorithm.SHA384 then
    .ok SigningAlgorithmSpecRsassaPkcs1V15Sha384
  else if isRSA ∧ isPSS = false ∧ hashAlgo = keymanager.HashAlgorithm.SHA512 then
    .ok SigningAlgorithmSpecRsassaPkcs1V15Sha512
  else if isRSA ∧ isPSS = true ∧ hashAlgo = keymanager.HashAlgorithm.SHA256 then
    .ok SigningAlgorithmSpecRsassaPssSha256
  else if isRSA ∧ isPSS = true ∧ hashAlgo = keymanager.HashAlgorithm.SHA384 then
    .ok SigningAlgorithmSpecRsassaPssSha384
  else if isRSA ∧ isPSS = true ∧ hashAlgo = keymanager.HashAlgorithm.SHA512 then
    .ok SigningAlgorithmSpecRsassaPssSha512
  else
    .error "unsupported combination of keytype and hashing algorithm"

/-- Go function `signingAlgorithmForKMS`: the opening type switch assigns
`hashAlgo` and `isPSS`, then the shared switch (`signingAlgorithmCore`) picks a
KMS signing algorithm. -/
def signingAlgorithmForKMS (keyType : keymanager.KeyType) (signerOpts : SignerOpts) :
    Except String SigningAlgorithmSpec :=
  match signerOpts with
  | .hashAlgorithmVariant h => signingAlgorithmCore keyType h false
  | .pssOptionsVariant none => .error "PSS options are required"
  | .pssOptionsVariant (some o) => signingAlgorithmCore keyType o.HashAlgorithm true

/-- Go function `keyTypeFromKeySpec`. -/
def keyTypeFromKeySpec (keySpec : CustomerMasterKeySpec) :
    Except String keymanager.KeyType :=
  if keySpec = CustomerMasterKeySpecRsa2048 then .ok keymanager.KeyType.RSA_2048
  else if keySpec = CustomerMasterKeySpecRsa4096 then .ok keymanager.KeyType.RSA_4096
  else if keySpec = CustomerMasterKeySpecEccNistP256 then .ok keymanager.KeyType.EC_P256
  else if keySpec = CustomerMasterKeySpecEccNistP384 then .ok keymanager.KeyType.EC_P384
  else .error ("unsupported key spec: " ++ keySpec)

/-- Go function `keySpecFromKeyType`. -/
def keySpecFromKeyType (keyType : keymanager.KeyType) :
    Except String CustomerMasterKeySpec :=
  match keyType with
  | keymanager.KeyType.RSA_1024 => .error "unsupported key type: KeyType_RSA_1024"
  | keymanager.KeyType.RSA_2048 => .ok CustomerMasterKeySpecRsa2048
  | keymanager.KeyType.RSA_4096 => .ok CustomerMasterKeySpecRsa4096
  | keymanager.KeyType.EC_P256 => .ok CustomerMasterKeySpecEccNistP256
  | keymanager.KeyType.EC_P384 => .ok CustomerMasterKeySpecEccNistP384
  | keymanager.KeyType.UNSPECIFIED_KEY_TYPE => .error "unknown key type"

/-! ## Alias codec -/

/-- Worker behind Go's `strings.SplitAfter(s, sep)` for a non-empty separator
`sc :: stail`: scan left to right, cut after each non-overlapping occurrence of
the separator; `acc` holds the (reversed) chunk scanned so far.  The scan
consumes at least one character per step, so recursion is made structural on a
fuel counter that callers set to the scanned list's length. -/
def splitAfterFuel (sc : Char) (stail : List Char) :
    Nat → List Char → List Char → List (List Char)
  | _, [], acc => [acc.reverse]
  | 0, s, acc => [acc.reverse ++ s]
  | fuel + 1, c :: rest, acc =>
    if (sc :: stail).isPrefixOf (c :: rest) then
      (acc.reverse ++ sc :: stail) :: splitAfterFuel sc stail fuel (rest.drop stail.length) []
    else
      splitAfterFuel sc stail fuel rest (c :: acc)

/-- The scan entry point: fuel `s.length` never runs out (one character is
consumed per fuel unit at least). -/
def splitAfterAux (sc : Char) (stail : List Char) (s acc : List Char) : List (List Char) :=
  splitAfterFuel sc stail s.length s acc

/-- Go's `strings.SplitAfter`.  An empty separator explodes the string into its
characters (Go yields one slice per rune and no trailing empty slice). -/
def stringsSplitAfter (s sep : String) : List String :=
  match sep.data with
  | [] => s.data.map (fun c => String.mk [c])
  | sc :: stail => (splitAfterAux sc stail s.data []).map String.mk

/-- Go method `(p *Plugin).spireKeyIDFromAlias`, abstracted over the plugin's
configured `keyPrefix`: the alias decodes iff `strings.SplitAfter` on the
prefix yields exactly two tokens, and the decoded id is the second token. -/
def spireKeyIDFromAlias (keyPrefix al : String) : Except String String :=
  match stringsSplitAfter al keyPrefix with
  | [_, t] => .ok t
  | _ => .error ("alias does not contain the prefix " ++ keyPrefix)

/-- Go method `(p *Plugin).aliasFromSpireKeyID`, abstracted over the plugin's
configured `keyPrefix`. -/
def aliasFromSpireKeyID (keyPrefix spireKeyID : String) : String :=
  aliasPrefixConst ++ keyPrefix ++ spireKeyID

/-- Go method `(p *Plugin).descriptionFromSpireKeyID`, abstracted over the
plugin's configured `keyPrefix`. -/
def descriptionFromSpireKeyID (keyPrefix spireKeyID : String) : String :=
  keyPrefix ++ spireKeyID

/-- Decidable substring test on character lists: some suffix of `s` starts with
`sep`. -/
def listContainsSub (s sep : List Char) : Bool :=
  (List.range (s.length + 1)).any (fun i => sep.isPrefixOf (s.drop i))

/-! ## Data model: cached key entries and the entries map -/

/-- Go struct `keyEntry`.  `PublicKey` is a nilable pointer in Go, hence
`Option`. -/
structure keyEntry where
  KMSKeyID : String
  Alias : String
  PublicKey : Option keymanager.PublicKey
deriving DecidableEq

/-- Lookup in the `entries` map (Go `p.entries[spireKeyID]`). -/
def lookupE : List (String × keyEntry) → String → Option keyEntry
  | [], _ => none
  | (k, v) :: rest, key => if k = key then some v else lookupE rest key

/-- Map assignment `p.entries[spireKeyID] = entry`: replace the binding if the
key is present, append it otherwise. -/
def insertE : List (String × keyEntry) → String → keyEntry → List (String × keyEntry)
  | [], key, v => [(key, v)]
  | (k, w) :: rest, key, v =>
    if k = key then (key, v) :: rest else (k, w) :: insertE rest key v

/-- The Go map has unique keys; the association list mirrors that through this
invariant. -/
def keysNodup (m : List (String × keyEntry)) : Prop :=
  (m.map Prod.fst).Nodup

/-- Number of bindings a key has in the entries list (a Go map always has zero
or one). -/
def countKey (m : List (String × keyEntry)) (k : String) : Nat :=
  (m.filter (fun q => q.1 = k)).length

/-! ## The KMS client interface and the plugin state -/

/-- Input of `kms.CreateKeyInput` as used by the source. -/
structure CreateKeyInput where
  Description : String
  KeyUsage : String
  CustomerMasterKeySpec : CustomerMasterKeySpec
deriving DecidableEq

/-- The slice of `types.KeyMetadata` the source reads. -/
structure KeyMetadata where
  KeyId : String
  Enabled : Bool
  CustomerMasterKeySpec : CustomerMasterKeySpec
deriving DecidableEq

/-- Output of `CreateKey` (the source dereferences `KeyMetadata`
unconditionally, so it is embedded as a plain field). -/
structure CreateKeyOutput where
  KeyMetadata : KeyMetadata
deriving DecidableEq

structure GetPublicKeyInput where
  KeyId : String
deriving DecidableEq

/-- Output of `GetPublicKey`; the source dereferences `KeyId` and reads
`PublicKey` (the PKIX bytes). -/
structure GetPublicKeyOutput where
  KeyId : String
  PublicKey : List Nat
deriving DecidableEq

structure CreateAliasInput where
  AliasName : String
  TargetKeyId : String
deriving DecidableEq

structure UpdateAliasInput where
  AliasName : String
  TargetKeyId : String
deriving DecidableEq

structure ScheduleKeyDeletionInput where
  KeyId : String
  PendingWindowInDays : Int
deriving DecidableEq

structure DescribeKeyInput where
  KeyId : String
deriving DecidableEq

structure DescribeKeyOutput where
  KeyMetadata : KeyMetadata
deriving DecidableEq

/-- One page request of `ListAliases` (cursor-based pagination). -/
structure ListAliasesInput where
  Marker : Option String
deriving DecidableEq

/-- One alias record of a `ListAliases` page; both fields are nilable in the
SDK and the source nil-checks them. -/
structure AliasListEntry where
  AliasName : Option String
  TargetKeyId : Option String
deriving DecidableEq

structure ListAliasesOutput where
  Aliases : List AliasListEntry
  NextMarker : Option String
deriving DecidableEq

structure SignInput where
  KeyId : String
  Message : List Nat
  MessageType : String
  SigningAlgorithm : SigningAlgorithmSpec
deriving DecidableEq

structure SignOutput where
  Signature : List Nat
deriving DecidableEq

/-- The `kmsClient` interface: one response function per operation.  A call's
outcome is whatever the remote service decides, so theorems quantify over
these functions. -/
structure KmsClient where
  CreateKey : CreateKeyInput → Except String CreateKeyOutput
  GetPublicKey : GetPublicKeyInput → Except String GetPublicKeyOutput
  CreateAlias : CreateAliasInput → Except String Unit
  UpdateAlias : UpdateAliasInput → Except String Unit
  ScheduleKeyDeletion : ScheduleKeyDeletionInput → Except String Unit
  DescribeKey : DescribeKeyInput → Except String DescribeKeyOutput
  ListAliases : ListAliasesInput → Except String ListAliasesOutput
  Sign : SignInput → Except String SignOutput

/-- A remote call issued by a plugin method, recorded as data so that theorems
can state which calls a method performed. -/
inductive RemoteCall where
  | createKey (i : CreateKeyInput)
  | getPublicKey (i : GetPublicKeyInput)
  | createAlias (i : CreateAliasInput)
  | updateAlias (i : UpdateAliasInput)
  | scheduleKeyDeletion (i : ScheduleKeyDeletionInput)
  | describeKey (i : DescribeKeyInput)
  | listAliases (i : ListAliasesInput)
  | sign (i : SignInput)
deriving DecidableEq

/-- Go struct `Config` after HCL parsing (the HCL decoding itself is the
external `hcl` library and stays outside the embedding). -/
structure Config where
  AccessKeyID : String
  SecretAccessKey : String
  Region : String
  KeyPrefix : String
deriving DecidableEq

/-- Go struct `Plugin`: the mutable state (`entries`, `keyPrefix`,
`kmsClient`) plus the `newClient` hook installed by `newPlugin`.  The logger
and the mutex carry no cache state and are omitted. -/
structure Plugin where
  entries : List (String × keyEntry)
  kmsClient : KmsClient
  keyPrefix : String
  newClientHook : Config → Except String KmsClient

/-- A client whose every call fails, standing in for Go's nil interface held
by a plugin before `Configure` installs a real client. -/
def nilClient : KmsClient where
  CreateKey := fun _ => .error "nil client"
  GetPublicKey := fun _ => .error "nil client"
  CreateAlias := fun _ => .error "nil client"
  UpdateAlias := fun _ => .error "nil client"
  ScheduleKeyDeletion := fun _ => .error "nil client"
  DescribeKey := fun _ => .error "nil client"
  ListAliases := fun _ => .error "nil client"
  Sign := fun _ => .error "nil client"

/-- Go function `newPlugin`: fresh empty entries map, hook installed, no
client yet. -/
def newPlugin (newClient : Config → Except String KmsClient) : Plugin where
  entries := []
  kmsClient := nilClient
  keyPrefix := ""
  newClientHook := newClient

/-- Go method `(p *Plugin).entry`. -/
def Plugin.entry (p : Plugin) (spireKeyID : String) : Option keyEntry :=
  lookupE p.entries spireKeyID

/-- Go method `(p *Plugin).setEntry`: validate every field of the candidate
entry, then write it into the map; on a validation error the state is
untouched. -/
def Plugin.setEntry (p : Plugin) (spireKeyID : String) (entry : keyEntry) :
    Except String Unit × Plugin :=
  if spireKeyID = "" then (.error "spireKeyID is required", p)
  else if entry.KMSKeyID = "" then (.error "KMSKeyID is required", p)
  else if entry.Alias = "" then (.error "Alias is required", p)
  else
    match entry.PublicKey with
    | none => (.error "PublicKey is required", p)
    | some pk =>
      if pk.Id = "" then (.error "PublicKey.Id is required", p)
      else if pk.Typ = keymanager.KeyType.UNSPECIFIED_KEY_TYPE then
        (.error "PublicKey.Type is required", p)
      else if pk.PkixData = [] then (.error "PublicKey.PkixData is required", p)
      else (.ok (), { p with entries := insertE p.entries spireKeyID entry })

/-- Go's `clonePublicKey` (`proto.Clone`): a deep copy, which under value
semantics is the identity. -/
def clonePublicKey (publicKey : Option keymanager.PublicKey) : Option keymanager.PublicKey :=
  publicKey

/-- Go method `(p *Plugin).spireKeyIDFromAlias` (wrapper over the
prefix-abstracted codec). -/
def Plugin.spireKeyIDFromAlias (p : Plugin) (al : String) : Except String String :=
  awskms.spireKeyIDFromAlias p.keyPrefix al

/-- Go method `(p *Plugin).aliasFromSpireKeyID`. -/
def Plugin.aliasFromSpireKeyID (p : Plugin) (spireKeyID : String) : String :=
  awskms.aliasFromSpireKeyID p.keyPrefix spireKeyID

/-- Go method `(p *Plugin).descriptionFromSpireKeyID`. -/
def Plugin.descriptionFromSpireKeyID (p : Plugin) (spireKeyID : String) : String :=
  awskms.descriptionFromSpireKeyID p.keyPrefix spireKeyID

/-! ## Key lifecycle: createKey, GenerateKey, SignData -/

/-- Go method `(p *Plugin).createKey`: map the key type to a KMS key spec,
create the remote key, fetch its public key, and assemble the candidate cache
entry.  Also reports the remote calls it issued. -/
def Plugin.createKey (p : Plugin) (spireKeyID : String) (keyType : keymanager.KeyType) :
    Except String keyEntry × List RemoteCall :=
  let description := p.descriptionFromSpireKeyID spireKeyID
  match keySpecFromKeyType keyType with
  | .error e => (.error e, [])
  | .ok keySpec =>
    let createKeyInput : CreateKeyInput :=
      { Description := description, KeyUsage := KeyUsageTypeSignVerify,
        CustomerMasterKeySpec := keySpec }
    match p.kmsClient.CreateKey createKeyInput with
    | .error e => (.error ("failed to create key: " ++ e), [.createKey createKeyInput])
    | .ok key =>
      let gi : GetPublicKeyInput := { KeyId := key.KeyMetadata.KeyId }
      match p.kmsClient.GetPublicKey gi with
      | .error e =>
        (.error ("failed to get public key: " ++ e),
         [.createKey createKeyInput, .getPublicKey gi])
      | .ok pub =>
        (.ok { KMSKeyID := pub.KeyId, Alias := p.aliasFromSpireKeyID spireKeyID,
               PublicKey := some { Id := spireKeyID, Typ := keyType, PkixData := pub.PublicKey } },
         [.createKey createKeyInput, .getPublicKey gi])

structure GenerateKeyRequest where
  KeyId : String
  KeyType : keymanager.KeyType
deriving DecidableEq

structure GenerateKeyResponse where
  PublicKey : Option keymanager.PublicKey
deriving DecidableEq

/-- Result of the embedded `GenerateKey`: the RPC result, the plugin state
after the call, the remote calls issued synchronously, and the calls issued by
the detached deletion goroutine (fire-and-forget: its outcome never reaches
the caller). -/
structure GenerateKeyOutcome where
  result : Except String GenerateKeyResponse
  plugin : Plugin
  calls : List RemoteCall
  detached : List RemoteCall

/-- Go method `(p *Plugin).GenerateKey`: validate the request, create the
remote key, create or repoint the alias, schedule deletion of a superseded key
in a detached task, and admit the new entry to the cache. -/
def Plugin.GenerateKey (p : Plugin) (req : GenerateKeyRequest) : GenerateKeyOutcome :=
  if req.KeyId = "" then ⟨.error "key id is required", p, [], []⟩
  else if req.KeyType = keymanager.KeyType.UNSPECIFIED_KEY_TYPE then
    ⟨.error "key type is required", p, [], []⟩
  else
    let spireKeyID := req.KeyId
    match p.createKey spireKeyID req.KeyType with
    | (.error e, calls) => ⟨.error e, p, calls, []⟩
    | (.ok newEntry, calls) =>
      match p.entry spireKeyID with
      | none =>
        let cai : CreateAliasInput :=
          { AliasName := newEntry.Alias, TargetKeyId := newEntry.KMSKeyID }
        match p.kmsClient.CreateAlias cai with
        | .error e =>
          ⟨.error ("failed to create alias: " ++ e), p, calls ++ [.createAlias cai], []⟩
        | .ok _ =>
          let (r, p') := p.setEntry spireKeyID newEntry
          match r with
          | .error e => ⟨.error e, p', calls ++ [.createAlias cai], []⟩
          | .ok _ =>
            ⟨.ok { PublicKey := clonePublicKey newEntry.PublicKey }, p',
             calls ++ [.createAlias cai], []⟩
      | some oldEntry =>
        let uai : UpdateAliasInput :=
          { AliasName := newEntry.Alias, TargetKeyId := newEntry.KMSKeyID }
        match p.kmsClient.UpdateAlias uai with
        | .error e =>
          ⟨.error ("failed to update alias: " ++ e), p, calls ++ [.updateAlias uai], []⟩
        | .ok _ =>
          let ski : ScheduleKeyDeletionInput :=
            { KeyId := oldEntry.KMSKeyID, PendingWindowInDays := 7 }
          let (r, p') := p.setEntry spireKeyID newEntry
          match r with
          | .error e =>
            ⟨.error e, p', calls ++ [.updateAlias uai], [.scheduleKeyDeletion ski]⟩
          | .ok _ =>
            ⟨.ok { PublicKey := clonePublicKey newEntry.PublicKey }, p',
             calls ++ [.updateAlias uai], [.scheduleKeyDeletion ski]⟩

structure SignDataRequest where
  KeyId : String
  Data : List Nat
  SignerOpts : Option SignerOpts
deriving DecidableEq

structure SignDataResponse where
  Signature : List Nat
deriving DecidableEq

/-- Result of the embedded `SignData` (the method holds only a read lock, so
the returned plugin state is the input state). -/
structure SignDataOutcome where
  result : Except String SignDataResponse
  plugin : Plugin
  calls : List RemoteCall

/-- Go method `(p *Plugin).SignData`: validate the request, look the key up in
the cache, resolve the KMS signing algorithm, and sign the digest remotely via
the entry's alias. -/
def Plugin.SignData (p : Plugin) (req : SignDataRequest) : SignDataOutcome :=
  if req.KeyId = "" then ⟨.error "key id is required", p, []⟩
  else
    match req.SignerOpts with
    | none => ⟨.error "signer opts is required", p, []⟩
    | some opts =>
      match p.entry req.KeyId with
      | none => ⟨.error ("no such key " ++ req.KeyId), p, []⟩
      | some ke =>
        match ke.PublicKey with
        | none => ⟨.error "nil pointer dereference", p, []⟩
        | some pk =>
          match signingAlgorithmForKMS pk.Typ opts with
          | .error e => ⟨.error e, p, []⟩
          | .ok signingAlgo =>
            let si : SignInput :=
              { KeyId := ke.Alias, Message := req.Data,
                MessageType := MessageTypeDigest, SigningAlgorithm := signingAlgo }
            match p.kmsClient.Sign si with
            | .error e => ⟨.error ("failed to sign: " ++ e), p, [.sign si]⟩
            | .ok signResp =>
              ⟨.ok { Signature := signResp.Signature }, p, [.sign si]⟩

/-! ## Reconciliation: buildKeyEntry, fetchAliasesPage, Configure -/

/-- Go method `(p *Plugin).buildKeyEntry`: describe the aliased key (a failure
here is fatal), skip disabled keys, skip aliases that do not decode under the
configured prefix, skip unsupported key specs, then fetch the public key (a
failure here is fatal again) and assemble the entry.  `.ok none` is the benign
skip; `.error` aborts the caller's reconciliation. -/
def Plugin.buildKeyEntry (p : Plugin) (al : String) (awsKeyID : String) :
    Except String (Option keyEntry) × List RemoteCall :=
  let di : DescribeKeyInput := { KeyId := al }
  match p.kmsClient.DescribeKey di with
  | .error e => (.error ("failed to describe key: " ++ e), [.describeKey di])
  | .ok describeResp =>
    if describeResp.KeyMetadata.Enabled = false then (.ok none, [.describeKey di])
    else
      match p.spireKeyIDFromAlias al with
      | .error _ => (.ok none, [.describeKey di])
      | .ok spireKeyID =>
        match keyTypeFromKeySpec describeResp.KeyMetadata.CustomerMasterKeySpec with
        | .error _ => (.ok none, [.describeKey di])
        | .ok keyType =>
          let gi : GetPublicKeyInput := { KeyId := al }
          match p.kmsClient.GetPublicKey gi with
          | .error e =>
            (.error ("failed to get public key: " ++ e), [.describeKey di, .getPublicKey gi])
          | .ok getPublicKeyResp =>
            (.ok (some { KMSKeyID := awsKeyID, Alias := al,
                         PublicKey := some { Id := spireKeyID, Typ := keyType,
                                             PkixData := getPublicKeyResp.PublicKey } }),
             [.describeKey di, .getPublicKey gi])

/-- The loop body of `fetchAliasesPage`: process the listed alias records in
order, skipping records with a missing name or target, aborting on a
`buildKeyEntry` or `setEntry` error (mutations already performed are kept). -/
def Plugin.processAliases (p : Plugin) :
    List AliasListEntry → Except String Unit × Plugin × List RemoteCall
  | [] => (.ok (), p, [])
  | a :: rest =>
    match a.AliasName, a.TargetKeyId with
    | some name, some target =>
      match p.buildKeyEntry name target with
      | (.error e, calls) => (.error ("failed to process KMS key: " ++ e), p, calls)
      | (.ok none, calls) =>
        let (r, p', cs) := p.processAliases rest
        (r, p', calls ++ cs)
      | (.ok (some entry), calls) =>
        match entry.PublicKey with
        | none => (.error "nil pointer dereference", p, calls)
        | some pk =>
          let (r, p') := p.setEntry pk.Id entry
          match r with
          | .error e => (.error e, p', calls)
          | .ok _ =>
            let (r2, p'', cs) := p'.processAliases rest
            (r2, p'', calls ++ cs)
    | _, _ => p.processAliases rest

/-- Go method `(p *Plugin).fetchAliasesPage`: fetch one page of the alias
listing (a failure is fatal), process its records, and return the next page
marker. -/
def Plugin.fetchAliasesPage (p : Plugin) (marker : Option String) :
    Except String (Option String) × Plugin × List RemoteCall :=
  let li : ListAliasesInput := { Marker := marker }
  match p.kmsClient.ListAliases li with
  | .error e => (.error ("failed to fetch keys: " ++ e), p, [.listAliases li])
  | .ok aliasesResp =>
    let (r, p', cs) := p.processAliases aliasesResp.Aliases
    match r with
    | .error e => (.error e, p', RemoteCall.listAliases li :: cs)
    | .ok _ => (.ok aliasesResp.NextMarker, p', RemoteCall.listAliases li :: cs)

/-- The page loop inside `Configure`: follow continuation markers until a page
reports none.  The Go loop has no iteration bound; `fuel` bounds the embedded
loop, and exhausting it is an error that cannot occur for a client whose
marker chain terminates within `fuel` pages. -/
def Plugin.configureLoop (p : Plugin) : Nat → Option String → Except String Unit × Plugin
  | 0, _ => (.error "alias pagination exceeded the page bound", p)
  | fuel + 1, marker =>
    match p.fetchAliasesPage marker with
    | (.error e, p', _) => (.error e, p')
    | (.ok none, p', _) => (.ok (), p')
    | (.ok (some m), p', _) => p'.configureLoop fuel (some m)

/-- Go method `(p *Plugin).validateConfig`, after HCL parsing: the region is
required and an unset key prefix falls back to the default. -/
def validateConfig (config : Config) : Except String Config :=
  if config.Region = "" then .error "configuration is missing a region"
  else if config.KeyPrefix = "" then .ok { config with KeyPrefix := defaultKeyPrefixConst }
  else .ok config

/-- Go method `(p *Plugin).Configure`: validate the configuration, record the
key prefix, build the KMS client through the hook, then page through all
aliases.  Mutations performed before a failure persist, matching the Go
receiver mutation order. -/
def Plugin.Configure (p : Plugin) (fuel : Nat) (config : Config) :
    Except String Unit × Plugin :=
  match validateConfig config with
  | .error e => (.error e, p)
  | .ok cfg =>
    let p1 := { p with keyPrefix := cfg.KeyPrefix }
    match p.newClientHook cfg with
    | .error e => (.error ("failed to create KMS client: " ++ e), p1)
    | .ok client =>
      let p2 := { p1 with kmsClient := client }
      p2.configureLoop fuel none

/-! ## Spec-side table and concrete fixtures used by witnesses -/

/-- Spec-side table for the amended C5 claim (named from the claim's words,
for comparison with `signingAlgorithmCore`): the defined mappings of
`signingAlgorithmFor`, with the padding flag ignored for the two EC rows;
`none` stands for failure. -/
def signingAlgorithmTable (keyType : keymanager.KeyType)
    (hashAlgo : keymanager.HashAlgorithm) (isPSS : Bool) :
    Option SigningAlgorithmSpec :=
  match keyType, hashAlgo, isPSS with
  | .EC_P256, .SHA256, _ => some SigningAlgorithmSpecEcdsaSha256
  | .EC_P384, .SHA384, _ => some SigningAlgorithmSpecEcdsaSha384
  | .RSA_2048, .SHA256, false => some SigningAlgorithmSpecRsassaPkcs1V15Sha256
  | .RSA_2048, .SHA384, false => some SigningAlgorithmSpecRsassaPkcs1V15Sha384
  | .RSA_2048, .SHA512, false => some SigningAlgorithmSpecRsassaPkcs1V15Sha512
  | .RSA_2048, .SHA256, true => some SigningAlgorithmSpecRsassaPssSha256
  | .RSA_2048, .SHA384, true => some SigningAlgorithmSpecRsassaPssSha384
  | .RSA_2048, .SHA512, true => some SigningAlgorithmSpecRsassaPssSha512
  | .RSA_4096, .SHA256, false => some SigningAlgorithmSpecRsassaPkcs1V15Sha256
  | .RSA_4096, .SHA384, false => some SigningAlgorithmSpecRsassaPkcs1V15Sha384
  | .RSA_4096, .SHA512, false => some SigningAlgorithmSpecRsassaPkcs1V15Sha512
  | .RSA_4096, .SHA256, true => some SigningAlgorithmSpecRsassaPssSha256
  | .RSA_4096, .SHA384, true => some SigningAlgorithmSpecRsassaPssSha384
  | .RSA_4096, .SHA512, true => some SigningAlgorithmSpecRsassaPssSha512
  | _, _, _ => none

/-- A KMS client answering every call with a fixed response, used to
instantiate theorems at concrete inputs. -/
def constClient (ck : CreateKeyOutput) (pub : GetPublicKeyOutput)
    (dk : DescribeKeyOutput) (la : ListAliasesOutput) : KmsClient where
  CreateKey := fun _ => .ok ck
  GetPublicKey := fun _ => .ok pub
  CreateAlias := fun _ => .ok ()
  UpdateAlias := fun _ => .ok ()
  ScheduleKeyDeletion := fun _ => .ok ()
  DescribeKey := fun _ => .ok dk
  ListAliases := fun _ => .ok la
  Sign := fun _ => .ok { Signature := [0] }

def sampleMetadata1 : KeyMetadata :=
  { KeyId := "awsid1", Enabled := true, CustomerMasterKeySpec := CustomerMasterKeySpecEccNistP256 }

def sampleMetadata2 : KeyMetadata :=
  { KeyId := "awsid2", Enabled := true, CustomerMasterKeySpec := CustomerMasterKeySpecEccNistP256 }

def pubOut1 : GetPublicKeyOutput := { KeyId := "awsid1", PublicKey := [1, 2, 3] }

def pubOut2 : GetPublicKeyOutput := { KeyId := "awsid2", PublicKey := [4, 5, 6] }

def laEmpty : ListAliasesOutput := { Aliases := [], NextMarker := none }

/-- Client for the first generation: creates `awsid1`. -/
def client1 : KmsClient :=
  constClient { KeyMetadata := sampleMetadata1 } pubOut1 { KeyMetadata := sampleMetadata1 } laEmpty

/-- Client for the second generation: creates `awsid2`. -/
def client2 : KmsClient :=
  constClient { KeyMetadata := sampleMetadata2 } pubOut2 { KeyMetadata := sampleMetadata2 } laEmpty

/-- Client whose alias operations fail (for the alias-failure witness). -/
def aliasFailClient : KmsClient :=
  { client1 with CreateAlias := fun _ => .error "denied",
                 UpdateAlias := fun _ => .error "denied" }

/-- A plugin in a given state, configured with the default key prefix. -/
def testPlugin (c : KmsClient) (es : List (String × keyEntry)) : Plugin where
  entries := es
  kmsClient := c
  keyPrefix := defaultKeyPrefixConst
  newClientHook := fun _ => .ok c

/-- A pre-existing cache entry used by witnesses. -/
def sampleEntry : keyEntry :=
  { KMSKeyID := "awsid0", Alias := "alias/SPIRE_SERVER_KEY/k0",
    PublicKey := some { Id := "k0", Typ := keymanager.KeyType.EC_P256, PkixData := [9] } }

/-- A one-record alias listing page with no continuation marker. -/
def laOne : ListAliasesOutput :=
  { Aliases := [{ AliasName := some "alias/SPIRE_SERVER_KEY/k1", TargetKeyId := some "awsid1" }],
    NextMarker := none }

/-- Client whose described key is administratively disabled. -/
def disabledClient : KmsClient :=
  constClient { KeyMetadata := sampleMetadata1 } pubOut1
    { KeyMetadata := { KeyId := "awsid1", Enabled := false,
                       CustomerMasterKeySpec := CustomerMasterKeySpecEccNistP256 } }
    laOne

/-- Client whose get-public-key call fails while describe succeeds. -/
def pubFailClient : KmsClient :=
  { constClient { KeyMetadata := sampleMetadata1 } pubOut1
      { KeyMetadata := sampleMetadata1 } laOne with
    GetPublicKey := fun _ => .error "down" }

/-- The configuration used by witnesses (region set, prefix defaulted). -/
def sampleConfig : Config :=
  { AccessKeyID := "", SecretAccessKey := "", Region := "r", KeyPrefix := "" }

end awskms

/-! # Theorems -/

namespace awskms

theorem isOkE_true_iff {α : Type} (r : Except String α) :
    isOkE r = true ↔ ∃ a, r = .ok a := by
  cases r <;> simp [isOkE]

theorem isOkE_false_iff {α : Type} (r : Except String α) :
    isOkE r = false ↔ ∃ e, r = .error e := by
  cases r <;> simp [isOkE]

/-- C5 (amended): the triple-level behaviour of the signing-algorithm mapper.
The two EC rows ignore the padding flag — `(EC_P256, SHA256, pss=true)` also
yields ECDSA-SHA256 — while the eight RSA rows and every failure case are as
the claim lists them (hash unspecified, or a triple outside the table). -/
theorem signingAlgorithmForKMS_characterization :
    (∀ kt h b, (signingAlgorithmCore kt h b).toOption = signingAlgorithmTable kt h b) ∧
    (∀ kt h, signingAlgorithmForKMS kt (SignerOpts.hashAlgorithmVariant h) =
      signingAlgorithmCore kt h false) ∧
    (∀ kt o, signingAlgorithmForKMS kt (SignerOpts.pssOptionsVariant (some o)) =
      signingAlgorithmCore kt o.HashAlgorithm true) ∧
    (∀ kt b, isOkE
      (signingAlgorithmCore kt keymanager.HashAlgorithm.UNSPECIFIED_HASH_ALGORITHM b) = false) := by
  refine ⟨?_, ?_, ?_, ?_⟩
  · intro kt h b
    cases kt <;> cases h <;> cases b <;> rfl
  · intro kt h
    rfl
  · intro kt o
    rfl
  · intro kt b
    cases kt <;> cases b <;> rfl

/-- C5 counterexample: PSS signer options with an EC P-256 key and SHA-256 are
accepted and mapped to ECDSA-SHA256, although `(EC_P256, SHA256, pss=true)` is
not one of the defined mappings, so the claim's failure requirement is false
there. -/
theorem signingAlgorithmForKMS_ec_pss_counterexample :
    signingAlgorithmForKMS keymanager.KeyType.EC_P256
        (SignerOpts.pssOptionsVariant (some ⟨keymanager.HashAlgorithm.SHA256, 32⟩)) =
      Except.ok SigningAlgorithmSpecEcdsaSha256 := rfl

/-- C8: the key-type/key-spec maps are mutually inverse on the four supported
key types; `keySpecFromKeyType` fails on RSA-1024 and on the default branch
(the unspecified sentinel, which stands for any unrecognized enum value in
this closed embedding); `keyTypeFromKeySpec` fails on every key spec other
than the four supported ones. -/
theorem keySpec_keyType_inverse :
    keySpecFromKeyType keymanager.KeyType.RSA_2048 = .ok CustomerMasterKeySpecRsa2048 ∧
    keySpecFromKeyType keymanager.KeyType.RSA_4096 = .ok CustomerMasterKeySpecRsa4096 ∧
    keySpecFromKeyType keymanager.KeyType.EC_P256 = .ok CustomerMasterKeySpecEccNistP256 ∧
    keySpecFromKeyType keymanager.KeyType.EC_P384 = .ok CustomerMasterKeySpecEccNistP384 ∧
    keyTypeFromKeySpec CustomerMasterKeySpecRsa2048 = .ok keymanager.KeyType.RSA_2048 ∧
    keyTypeFromKeySpec CustomerMasterKeySpecRsa4096 = .ok keymanager.KeyType.RSA_4096 ∧
    keyTypeFromKeySpec CustomerMasterKeySpecEccNistP256 = .ok keymanager.KeyType.EC_P256 ∧
    keyTypeFromKeySpec CustomerMasterKeySpecEccNistP384 = .ok keymanager.KeyType.EC_P384 ∧
    isOkE (keySpecFromKeyType keymanager.KeyType.RSA_1024) = false ∧
    isOkE (keySpecFromKeyType keymanager.KeyType.UNSPECIFIED_KEY_TYPE) = false ∧
    ∀ s : CustomerMasterKeySpec,
      s ≠ CustomerMasterKeySpecRsa2048 → s ≠ CustomerMasterKeySpecRsa4096 →
      s ≠ CustomerMasterKeySpecEccNistP256 → s ≠ CustomerMasterKeySpecEccNistP384 →
      isOkE (keyTypeFromKeySpec s) = false := by
  refine ⟨rfl, rfl, rfl, rfl, rfl, rfl, rfl, rfl, by decide, by decide, ?_⟩
  intro s h1 h2 h3 h4
  simp [keyTypeFromKeySpec, h1, h2, h3, h4, isOkE]

/-- C8 witness: a key spec outside the four supported ones (the symmetric
default spec) is rejected by `keyTypeFromKeySpec`. -/
theorem keySpec_keyType_inverse_witness :
    isOkE (keyTypeFromKeySpec "SYMMETRIC_DEFAULT") = false :=
  keySpec_keyType_inverse.2.2.2.2.2.2.2.2.2.2 "SYMMETRIC_DEFAULT"
    (by decide) (by decide) (by decide) (by decide)

/-! ## Lemmas about the split-after scan -/

theorem splitAfterFuel_no_match (sc : Char) (stail : List Char) :
    ∀ (fuel : Nat) (t acc : List Char), t.length ≤ fuel →
      (∀ i, (sc :: stail).isPrefixOf (t.drop i) = false) →
      splitAfterFuel sc stail fuel t acc = [acc.reverse ++ t] := by
  intro fuel
  induction fuel with
  | zero =>
    intro t acc hlen _
    cases t with
    | nil => simp [splitAfterFuel]
    | cons c r => simp at hlen
  | succ f ih =>
    intro t acc hlen h
    cases t with
    | nil => simp [splitAfterFuel]
    | cons c rest =>
      have h0 : (sc :: stail).isPrefixOf (c :: rest) = false := by simpa using h 0
      rw [splitAfterFuel, h0]
      simp only [Bool.false_eq_true, if_false]
      rw [ih rest (c :: acc) (by simp at hlen ⊢; omega)
        (fun i => by simpa using h (i + 1))]
      simp

theorem splitAfterFuel_extract (sc : Char) (stail b : List Char)
    (hb : ∀ i, (sc :: stail).isPrefixOf (b.drop i) = false) :
    ∀ (a : List Char) (fuel : Nat) (acc : List Char),
      (a ++ (sc :: stail) ++ b).length ≤ fuel →
      (∀ i, i < a.length →
        (sc :: stail).isPrefixOf ((a ++ (sc :: stail) ++ b).drop i) = false) →
      splitAfterFuel sc stail fuel (a ++ (sc :: stail) ++ b) acc =
        [acc.reverse ++ a ++ (sc :: stail), b] := by
  intro a
  induction a with
  | nil =>
    intro fuel acc hlen _
    cases fuel with
    | zero => simp at hlen
    | succ f =>
      have hpre : (sc :: stail).isPrefixOf ((sc :: stail) ++ b) = true := by
        rw [ List.isPrefixOf_iff_prefix]
        exact ⟨b, rfl⟩
      simp only [List.nil_append, List.cons_append] at hlen hpre ⊢
      rw [splitAfterFuel, hpre]
      simp only [if_true]
      rw [List.drop_left' (by rfl : stail.length = stail.length)]
      · rw [splitAfterFuel_no_match sc stail f b [] (by simp at hlen; omega) hb]
        simp
  | cons c a' ih =>
    intro fuel acc hlen hhead
    cases fuel with
    | zero => simp at hlen
    | succ f =>
      have h0 : (sc :: stail).isPrefixOf (c :: (a' ++ (sc :: stail) ++ b)) = false := by
        simpa using hhead 0 (by simp)
      simp only [List.cons_append] at hlen h0 ⊢
      rw [splitAfterFuel, h0]
      simp only [Bool.false_eq_true, if_false]
      rw [ih f (c :: acc) (by simp at hlen ⊢; omega)
        (fun i hi => by
          have := hhead (i + 1) (by simp; omega)
          simpa using this)]
      simp

theorem listContainsSub_false (s : List Char) (sc : Char) (stail : List Char)
    (h : listContainsSub s (sc :: stail) = false) :
    ∀ i, (sc :: stail).isPrefixOf (s.drop i) = false := by
  intro i
  by_cases hi : i ≤ s.length
  · rw [listContainsSub, ← Bool.not_eq_true, List.any_eq_true] at h
    push_neg at h
    have := h i (List.mem_range.mpr (by omega))
    rw [← Bool.not_eq_true]
    exact this
  · rw [List.drop_eq_nil_of_le (by omega)]
    rfl

/-- Core decoding lemma: if no occurrence of the (non-empty) prefix starts
inside `pre`, and `spireKeyID` does not contain the prefix, then the alias
`pre ++ keyPrefix ++ spireKeyID` decodes to `spireKeyID`. -/
theorem stringsSplitAfter_decode (pre keyPrefix spireKeyID : String)
    (hne : keyPrefix ≠ "")
    (hhead : ∀ i, i < pre.length →
      keyPrefix.data.isPrefixOf ((pre ++ keyPrefix ++ spireKeyID).data.drop i) = false)
    (hid : listContainsSub spireKeyID.data keyPrefix.data = false) :
    spireKeyIDFromAlias keyPrefix (pre ++ keyPrefix ++ spireKeyID) = .ok spireKeyID := by
  obtain ⟨al⟩ := pre
  obtain ⟨pl⟩ := keyPrefix
  obtain ⟨il⟩ := spireKeyID
  cases pl with
  | nil => exact absurd rfl hne
  | cons sc stail =>
    have hdata : (String.mk al ++ String.mk (sc :: stail) ++ String.mk il).data
        = al ++ (sc :: stail) ++ il := by
      simp [String.data_append]
    have hbil : ∀ i, (sc :: stail).isPrefixOf (il.drop i) = false :=
      listContainsSub_false il sc stail hid
    have hhead' : ∀ i, i < al.length →
        (sc :: stail).isPrefixOf ((al ++ (sc :: stail) ++ il).drop i) = false := by
      intro i hi
      have := hhead i (by simpa using hi)
      rwa [hdata] at this
    have key : stringsSplitAfter (String.mk al ++ String.mk (sc :: stail) ++ String.mk il)
        (String.mk (sc :: stail))
        = [String.mk (al ++ (sc :: stail)), String.mk il] := by
      show (splitAfterAux sc stail
        (String.mk al ++ String.mk (sc :: stail) ++ String.mk il).data []).map String.mk = _
      rw [hdata, splitAfterAux,
        splitAfterFuel_extract sc stail il hbil al _ [] (le_refl _) hhead']
      simp
    rw [spireKeyIDFromAlias, key]

/-- C6 (amended): composing the alias codec round-trips — for every non-empty
prefix such that no occurrence of the prefix starts inside the leading
"alias/" characters of the constructed alias, and every id not containing the
prefix, decoding the constructed alias recovers the id.  (The extra
no-occurrence-in-"alias/" condition is forced by the counterexample: without
it, a prefix such as "s/" also matches inside "alias/".) -/
theorem aliasRoundtrip (keyPrefix spireKeyID : String)
    (hne : keyPrefix ≠ "")
    (hhead : ∀ i, i < 6 →
      keyPrefix.data.isPrefixOf
        ((aliasFromSpireKeyID keyPrefix spireKeyID).data.drop i) = false)
    (hid : listContainsSub spireKeyID.data keyPrefix.data = false) :
    spireKeyIDFromAlias keyPrefix (aliasFromSpireKeyID keyPrefix spireKeyID) =
      .ok spireKeyID :=
  stringsSplitAfter_decode "alias/" keyPrefix spireKeyID hne hhead hid

/-- C6 witness: the default prefix with id "x" round-trips. -/
theorem aliasRoundtrip_witness :
    spireKeyIDFromAlias "SPIRE_SERVER_KEY/"
        (aliasFromSpireKeyID "SPIRE_SERVER_KEY/" "x") = Except.ok "x" :=
  aliasRoundtrip "SPIRE_SERVER_KEY/" "x" (by decide) (by decide) (by decide)

/-- C6 counterexample: with the prefix "s/" — which also occurs inside
"alias/" — and the id "x" (which does not contain the prefix), decoding the
constructed alias "alias/s/x" fails: the prefix occurs twice, so the split
yields three tokens. -/
theorem aliasRoundtrip_counterexample :
    spireKeyIDFromAlias "s/" (aliasFromSpireKeyID "s/" "x") ≠ Except.ok "x" ∧
    listContainsSub "x".data "s/".data = false := by
  constructor
  · have h : spireKeyIDFromAlias "s/" (aliasFromSpireKeyID "s/" "x")
        = Except.error "alias does not contain the prefix s/" := rfl
    rw [h]
    intro hc
    exact Except.noConfusion hc
  · decide

/-- C10: alias decoding does not require the constructed "alias/" head — any
text `pre` inside which no occurrence of the configured prefix starts works —
and reconciliation's `buildKeyEntry` then treats such a foreign-shaped alias
as belonging to this process, building a full cache entry keyed by the
decoded id. -/
theorem spireKeyIDFromAlias_foreign
    (pre keyPrefix spireKeyID awsKeyID : String) (p : Plugin)
    (dResp : DescribeKeyOutput) (kt : keymanager.KeyType) (gResp : GetPublicKeyOutput)
    (hne : keyPrefix ≠ "")
    (hhead : ∀ i, i < pre.length →
      keyPrefix.data.isPrefixOf ((pre ++ keyPrefix ++ spireKeyID).data.drop i) = false)
    (hid : listContainsSub spireKeyID.data keyPrefix.data = false)
    (hpfx : p.keyPrefix = keyPrefix)
    (hD : p.kmsClient.DescribeKey { KeyId := pre ++ keyPrefix ++ spireKeyID } = .ok dResp)
    (hEn : dResp.KeyMetadata.Enabled = true)
    (hKT : keyTypeFromKeySpec dResp.KeyMetadata.CustomerMasterKeySpec = .ok kt)
    (hG : p.kmsClient.GetPublicKey { KeyId := pre ++ keyPrefix ++ spireKeyID } = .ok gResp) :
    spireKeyIDFromAlias keyPrefix (pre ++ keyPrefix ++ spireKeyID) = .ok spireKeyID ∧
    (p.buildKeyEntry (pre ++ keyPrefix ++ spireKeyID) awsKeyID).1 =
      .ok (some { KMSKeyID := awsKeyID, Alias := pre ++ keyPrefix ++ spireKeyID,
                  PublicKey := some { Id := spireKeyID, Typ := kt,
                                      PkixData := gResp.PublicKey } }) := by
  have hdec : spireKeyIDFromAlias keyPrefix (pre ++ keyPrefix ++ spireKeyID) = .ok spireKeyID :=
    stringsSplitAfter_decode pre keyPrefix spireKeyID hne hhead hid
  refine ⟨hdec, ?_⟩
  rw [Plugin.buildKeyEntry, hD]
  simp only [hEn]
  rw [Plugin.spireKeyIDFromAlias, hpfx, hdec, hKT, hG]
  simp

/-- C10 witness: the foreign-shaped alias "other/SPIRE_SERVER_KEY/x" decodes
to "x", and `buildKeyEntry` over a live client admits it as an entry. -/
theorem spireKeyIDFromAlias_foreign_witness :
    spireKeyIDFromAlias "SPIRE_SERVER_KEY/" ("other/" ++ "SPIRE_SERVER_KEY/" ++ "x") =
      Except.ok "x" ∧
    ((testPlugin client1 []).buildKeyEntry ("other/" ++ "SPIRE_SERVER_KEY/" ++ "x") "awsid9").1 =
      .ok (some { KMSKeyID := "awsid9", Alias := "other/" ++ "SPIRE_SERVER_KEY/" ++ "x",
                  PublicKey := some { Id := "x", Typ := keymanager.KeyType.EC_P256,
                                      PkixData := [1, 2, 3] } }) :=
  spireKeyIDFromAlias_foreign "other/" "SPIRE_SERVER_KEY/" "x" "awsid9" (testPlugin client1 [])
    { KeyMetadata := sampleMetadata1 } keymanager.KeyType.EC_P256 pubOut1
    (by decide) (by decide) (by decide) rfl rfl rfl rfl rfl

/-- C4: `setEntry` rejects, leaving the plugin state unchanged, exactly when
some required field of the candidate is missing (empty cache key, empty remote
key id, empty alias, absent public key, empty public-key id, unspecified key
type, or empty PKIX bytes); with all fields present it succeeds and writes the
entry into the map. -/
theorem setEntry_validates (p : Plugin) (k : String) (e : keyEntry) :
    ((k = "" ∨ e.KMSKeyID = "" ∨ e.Alias = "" ∨ e.PublicKey = none ∨
      e.PublicKey.map (fun pk => pk.Id) = some "" ∨
      e.PublicKey.map (fun pk => pk.Typ) = some keymanager.KeyType.UNSPECIFIED_KEY_TYPE ∨
      e.PublicKey.map (fun pk => pk.PkixData) = some ([] : List Nat)) →
      isOkE (p.setEntry k e).1 = false ∧ (p.setEntry k e).2 = p) ∧
    (¬ (k = "" ∨ e.KMSKeyID = "" ∨ e.Alias = "" ∨ e.PublicKey = none ∨
      e.PublicKey.map (fun pk => pk.Id) = some "" ∨
      e.PublicKey.map (fun pk => pk.Typ) = some keymanager.KeyType.UNSPECIFIED_KEY_TYPE ∨
      e.PublicKey.map (fun pk => pk.PkixData) = some ([] : List Nat)) →
      (p.setEntry k e).1 = .ok () ∧
      (p.setEntry k e).2 = { p with entries := insertE p.entries k e }) := by
  rcases hpk : e.PublicKey with _ | pk
  · refine ⟨fun _ => ?_, fun hgood => absurd (Or.inr (Or.inr (Or.inr (Or.inl rfl)))) hgood⟩
    simp only [Plugin.setEntry, hpk]
    split_ifs <;> simp [isOkE]
  · constructor
    · intro hbad
      simp only [Plugin.setEntry, hpk]
      split_ifs <;> simp_all [isOkE]
    · intro hgood
      push_neg at hgood
      obtain ⟨h1, h2, h3, _, h5, h6, h7⟩ := hgood
      simp at h5 h6 h7
      simp [Plugin.setEntry, hpk, h1, h2, h3, h5, h6, h7]

/-- C4 witness: a fully populated entry is admitted and written; an empty
cache key is rejected with the state unchanged. -/
theorem setEntry_validates_witness :
    (((testPlugin client1 []).setEntry "k1" sampleEntry).1 = .ok () ∧
     ((testPlugin client1 []).setEntry "k1" sampleEntry).2 =
       { testPlugin client1 [] with entries := insertE [] "k1" sampleEntry }) ∧
    (isOkE ((testPlugin client1 []).setEntry "" sampleEntry).1 = false ∧
     ((testPlugin client1 []).setEntry "" sampleEntry).2 = testPlugin client1 []) :=
  ⟨(setEntry_validates (testPlugin client1 []) "k1" sampleEntry).2 (by decide),
   (setEntry_validates (testPlugin client1 []) "" sampleEntry).1 (Or.inl rfl)⟩

/-- C7: `SignData` with a non-empty key id and non-nil signer options, on a
key id absent from the cache, fails with the no-such-key error, issues no
remote call, and leaves the plugin state unchanged. -/
theorem signData_unknown_key (p : Plugin) (req : SignDataRequest) (opts : SignerOpts)
    (hk : req.KeyId ≠ "")
    (hopts : req.SignerOpts = some opts)
    (habs : lookupE p.entries req.KeyId = none) :
    (p.SignData req).result = .error ("no such key " ++ req.KeyId) ∧
    (p.SignData req).plugin = p ∧
    (p.SignData req).calls = [] := by
  simp [Plugin.SignData, hk, hopts, Plugin.entry, habs]

/-- C7 witness: signing with an unknown key id on an empty cache fails without
any remote call. -/
theorem signData_unknown_key_witness :
    ((testPlugin client1 []).SignData
      { KeyId := "k1", Data := [1],
        SignerOpts := some (SignerOpts.hashAlgorithmVariant keymanager.HashAlgorithm.SHA256) }).result
      = .error ("no such key " ++ "k1") ∧
    ((testPlugin client1 []).SignData
      { KeyId := "k1", Data := [1],
        SignerOpts := some (SignerOpts.hashAlgorithmVariant keymanager.HashAlgorithm.SHA256) }).plugin
      = testPlugin client1 [] ∧
    ((testPlugin client1 []).SignData
      { KeyId := "k1", Data := [1],
        SignerOpts := some (SignerOpts.hashAlgorithmVariant keymanager.HashAlgorithm.SHA256) }).calls
      = [] :=
  signData_unknown_key (testPlugin client1 [])
    { KeyId := "k1", Data := [1],
      SignerOpts := some (SignerOpts.hashAlgorithmVariant keymanager.HashAlgorithm.SHA256) }
    (SignerOpts.hashAlgorithmVariant keymanager.HashAlgorithm.SHA256)
    (by decide) rfl rfl

/-! ## Lemmas about the entries map -/

theorem lookupE_insertE_self (m : List (String × keyEntry)) (k : String) (v : keyEntry) :
    lookupE (insertE m k v) k = some v := by
  induction m with
  | nil => simp [insertE, lookupE]
  | cons a rest ih =>
    obtain ⟨k', w⟩ := a
    by_cases h : k' = k
    · simp [insertE, h, lookupE]
    · simp [insertE, h, lookupE, ih]

theorem lookupE_insertE (m : List (String × keyEntry)) (k k' : String) (v : keyEntry) :
    lookupE (insertE m k v) k' = if k = k' then some v else lookupE m k' := by
  induction m with
  | nil => simp [insertE, lookupE]
  | cons a rest ih =>
    obtain ⟨k0, w⟩ := a
    by_cases h0 : k0 = k
    · subst h0
      by_cases h1 : k0 = k'
      · subst h1
        simp [insertE, lookupE]
      · simp [insertE, lookupE, h1]
    · by_cases h1 : k0 = k'
      · subst h1
        have hne : ¬ (k = k0) := fun he => h0 he.symm
        simp [insertE, h0, lookupE, hne]
      · simp [insertE, h0, lookupE, h1, ih]

theorem countKey_eq_zero_of_not_mem (m : List (String × keyEntry)) (k : String)
    (h : k ∉ m.map Prod.fst) : countKey m k = 0 := by
  induction m with
  | nil => rfl
  | cons a rest ih =>
    simp only [List.map_cons, List.mem_cons] at h
    push_neg at h
    obtain ⟨h1, h2⟩ := h
    have h1' : ¬ (a.1 = k) := fun he => h1 he.symm
    rw [countKey, List.filter_cons, if_neg (by simpa using h1')]
    exact ih h2

theorem countKey_insertE (m : List (String × keyEntry)) (k : String) (v : keyEntry)
    (h : keysNodup m) : countKey (insertE m k v) k = 1 := by
  induction m with
  | nil => simp [insertE, countKey]
  | cons a rest ih =>
    obtain ⟨k0, w⟩ := a
    rw [keysNodup, List.map_cons, List.nodup_cons] at h
    obtain ⟨hnot, hrest⟩ := h
    by_cases h0 : k0 = k
    · subst h0
      rw [insertE, if_pos rfl, countKey, List.filter_cons, if_pos (by simp)]
      simp only [List.length_cons]
      have : countKey rest k0 = 0 := countKey_eq_zero_of_not_mem rest k0 hnot
      rw [countKey] at this
      omega
    · rw [insertE, if_neg h0, countKey, List.filter_cons, if_neg (by simpa using h0)]
      exact ih hrest

theorem mem_keys_insertE (m : List (String × keyEntry)) (k : String) (v : keyEntry)
    (x : String) :
    x ∈ (insertE m k v).map Prod.fst ↔ x = k ∨ x ∈ m.map Prod.fst := by
  induction m with
  | nil => simp [insertE]
  | cons a rest ih =>
    obtain ⟨k0, w⟩ := a
    by_cases h0 : k0 = k
    · subst h0
      simp [insertE]
    · simp [insertE, h0, ih]
      tauto

theorem keysNodup_insertE (m : List (String × keyEntry)) (k : String) (v : keyEntry)
    (h : keysNodup m) : keysNodup (insertE m k v) := by
  induction m with
  | nil => simp [insertE, keysNodup]
  | cons a rest ih =>
    obtain ⟨k0, w⟩ := a
    rw [keysNodup, List.map_cons, List.nodup_cons] at h
    obtain ⟨hnot, hrest⟩ := h
    by_cases h0 : k0 = k
    · subst h0
      rw [insertE, if_pos rfl, keysNodup, List.map_cons, List.nodup_cons]
      exact ⟨hnot, hrest⟩
    · rw [insertE, if_neg h0, keysNodup, List.map_cons, List.nodup_cons]
      refine ⟨?_, ih hrest⟩
      intro hx
      rcases (mem_keys_insertE rest k v k0).mp hx with he | hm
      · exact h0 he
      · exact hnot hm

/-! ## Lemmas about key generation -/

theorem aliasFromSpireKeyID_ne_empty (keyPrefix spireKeyID : String) :
    aliasFromSpireKeyID keyPrefix spireKeyID ≠ "" := by
  intro h
  have h2 := congrArg String.data h
  simp only [aliasFromSpireKeyID, String.data_append, List.append_eq_nil] at h2
  exact absurd h2.1.1 (by decide)

/-- Success of the inner `setEntry` when every field is populated. -/
theorem setEntry_ok (p : Plugin) (k : String) (e : keyEntry) (pk : keymanager.PublicKey)
    (hk : k ≠ "") (h2 : e.KMSKeyID ≠ "") (h3 : e.Alias ≠ "")
    (hpk : e.PublicKey = some pk) (h5 : pk.Id ≠ "")
    (h6 : pk.Typ ≠ keymanager.KeyType.UNSPECIFIED_KEY_TYPE) (h7 : pk.PkixData ≠ []) :
    p.setEntry k e = (.ok (), { p with entries := insertE p.entries k e }) := by
  simp [Plugin.setEntry, hk, h2, h3, hpk, h5, h6, h7]

/-- Symbolic execution of `createKey` under a client whose create and
get-public-key calls succeed. -/
theorem createKey_ok (p : Plugin) (k : String) (T : keymanager.KeyType)
    (spec : CustomerMasterKeySpec) (ck : CreateKeyOutput) (pub : GetPublicKeyOutput)
    (hspec : keySpecFromKeyType T = .ok spec)
    (hc : ∀ i, p.kmsClient.CreateKey i = .ok ck)
    (hg : ∀ i, p.kmsClient.GetPublicKey i = .ok pub) :
    p.createKey k T =
      (.ok { KMSKeyID := pub.KeyId, Alias := aliasFromSpireKeyID p.keyPrefix k,
             PublicKey := some { Id := k, Typ := T, PkixData := pub.PublicKey } },
       [RemoteCall.createKey
          { Description := descriptionFromSpireKeyID p.keyPrefix k,
            KeyUsage := KeyUsageTypeSignVerify, CustomerMasterKeySpec := spec },
        RemoteCall.getPublicKey { KeyId := ck.KeyMetadata.KeyId }]) := by
  simp [Plugin.createKey, Plugin.aliasFromSpireKeyID, Plugin.descriptionFromSpireKeyID,
    hspec, hc, hg]

/-- Symbolic execution of a successful `GenerateKey` (create or rotation
path): the response carries the new public key and the new entry replaces any
prior binding of the key id. -/
theorem generateKey_success (p : Plugin) (k : String) (T : keymanager.KeyType)
    (spec : CustomerMasterKeySpec) (ck : CreateKeyOutput) (pub : GetPublicKeyOutput)
    (hk : k ≠ "") (hT : T ≠ keymanager.KeyType.UNSPECIFIED_KEY_TYPE)
    (hspec : keySpecFromKeyType T = .ok spec)
    (hc : ∀ i, p.kmsClient.CreateKey i = .ok ck)
    (hg : ∀ i, p.kmsClient.GetPublicKey i = .ok pub)
    (hca : ∀ i, p.kmsClient.CreateAlias i = .ok ())
    (hua : ∀ i, p.kmsClient.UpdateAlias i = .ok ())
    (hid : pub.KeyId ≠ "") (hpkix : pub.PublicKey ≠ []) :
    (p.GenerateKey ⟨k, T⟩).result =
      .ok { PublicKey := some { Id := k, Typ := T, PkixData := pub.PublicKey } } ∧
    (p.GenerateKey ⟨k, T⟩).plugin.entries =
      insertE p.entries k
        { KMSKeyID := pub.KeyId, Alias := aliasFromSpireKeyID p.keyPrefix k,
          PublicKey := some { Id := k, Typ := T, PkixData := pub.PublicKey } } ∧
    (p.GenerateKey ⟨k, T⟩).plugin.keyPrefix = p.keyPrefix := by
  have hck := createKey_ok p k T spec ck pub hspec hc hg
  have hse := setEntry_ok p k
    { KMSKeyID := pub.KeyId, Alias := aliasFromSpireKeyID p.keyPrefix k,
      PublicKey := some { Id := k, Typ := T, PkixData := pub.PublicKey } }
    { Id := k, Typ := T, PkixData := pub.PublicKey }
    hk hid (aliasFromSpireKeyID_ne_empty p.keyPrefix k) rfl hk hT hpkix
  cases hold : lookupE p.entries k with
  | none =>
    simp [Plugin.GenerateKey, hk, hT, hck, Plugin.entry, hold, hca, hse, clonePublicKey]
  | some old =>
    simp [Plugin.GenerateKey, hk, hT, hck, Plugin.entry, hold, hua, hse, clonePublicKey]

/-- C1: two successive successful GenerateKey calls for the same key id (the
second, `q`, runs on the state left by the first with the remote service now
answering with a fresh key id).  Afterwards the cache holds exactly one entry
for the key id; that entry's remote key id is the second generation's
(differing from the first's), and the alias is the same string across both
generations. -/
theorem generateKey_rotation (p q : Plugin) (k : String) (T : keymanager.KeyType)
    (spec : CustomerMasterKeySpec) (ck1 ck2 : CreateKeyOutput)
    (pub1 pub2 : GetPublicKeyOutput)
    (hnodup : keysNodup p.entries)
    (hk : k ≠ "") (hT : T ≠ keymanager.KeyType.UNSPECIFIED_KEY_TYPE)
    (hspec : keySpecFromKeyType T = .ok spec)
    (h1c : ∀ i, p.kmsClient.CreateKey i = .ok ck1)
    (h1g : ∀ i, p.kmsClient.GetPublicKey i = .ok pub1)
    (h1ca : ∀ i, p.kmsClient.CreateAlias i = .ok ())
    (h1ua : ∀ i, p.kmsClient.UpdateAlias i = .ok ())
    (hq_entries : q.entries = (p.GenerateKey ⟨k, T⟩).plugin.entries)
    (hqPfx : q.keyPrefix = (p.GenerateKey ⟨k, T⟩).plugin.keyPrefix)
    (h2c : ∀ i, q.kmsClient.CreateKey i = .ok ck2)
    (h2g : ∀ i, q.kmsClient.GetPublicKey i = .ok pub2)
    (h2ca : ∀ i, q.kmsClient.CreateAlias i = .ok ())
    (h2ua : ∀ i, q.kmsClient.UpdateAlias i = .ok ())
    (hid1 : pub1.KeyId ≠ "") (hpkix1 : pub1.PublicKey ≠ [])
    (hid2 : pub2.KeyId ≠ "") (hpkix2 : pub2.PublicKey ≠ [])
    (hdiff : pub2.KeyId ≠ pub1.KeyId) :
    isOkE (p.GenerateKey ⟨k, T⟩).result = true ∧
    lookupE (p.GenerateKey ⟨k, T⟩).plugin.entries k =
      some { KMSKeyID := pub1.KeyId, Alias := aliasFromSpireKeyID p.keyPrefix k,
             PublicKey := some { Id := k, Typ := T, PkixData := pub1.PublicKey } } ∧
    isOkE (q.GenerateKey ⟨k, T⟩).result = true ∧
    countKey (q.GenerateKey ⟨k, T⟩).plugin.entries k = 1 ∧
    lookupE (q.GenerateKey ⟨k, T⟩).plugin.entries k =
      some { KMSKeyID := pub2.KeyId, Alias := aliasFromSpireKeyID p.keyPrefix k,
             PublicKey := some { Id := k, Typ := T, PkixData := pub2.PublicKey } } ∧
    pub2.KeyId ≠ pub1.KeyId := by
  obtain ⟨r1, e1, kp1⟩ :=
    generateKey_success p k T spec ck1 pub1 hk hT hspec h1c h1g h1ca h1ua hid1 hpkix1
  obtain ⟨r2, e2, _⟩ :=
    generateKey_success q k T spec ck2 pub2 hk hT hspec h2c h2g h2ca h2ua hid2 hpkix2
  rw [hqPfx, kp1] at e2
  rw [hq_entries, e1] at e2
  refine ⟨by simp [r1, isOkE], ?_, by simp [r2, isOkE], ?_, ?_, hdiff⟩
  · rw [e1, lookupE_insertE_self]
  · rw [e2]
    exact countKey_insertE _ k _ (keysNodup_insertE _ k _ hnodup)
  · rw [e2, lookupE_insertE_self]

/-- C1 witness: generating "k1" twice from an empty cache, with the remote
answering "awsid1" then "awsid2". -/
theorem generateKey_rotation_witness :
    isOkE ((testPlugin client1 []).GenerateKey
      ⟨"k1", keymanager.KeyType.EC_P256⟩).result = true ∧
    lookupE ((testPlugin client1 []).GenerateKey
        ⟨"k1", keymanager.KeyType.EC_P256⟩).plugin.entries "k1" =
      some { KMSKeyID := "awsid1",
             Alias := aliasFromSpireKeyID defaultKeyPrefixConst "k1",
             PublicKey := some { Id := "k1", Typ := keymanager.KeyType.EC_P256,
                                 PkixData := [1, 2, 3] } } ∧
    isOkE (({ ((testPlugin client1 []).GenerateKey
        ⟨"k1", keymanager.KeyType.EC_P256⟩).plugin with kmsClient := client2 }.GenerateKey
      ⟨"k1", keymanager.KeyType.EC_P256⟩).result) = true ∧
    countKey (({ ((testPlugin client1 []).GenerateKey
        ⟨"k1", keymanager.KeyType.EC_P256⟩).plugin with kmsClient := client2 }.GenerateKey
      ⟨"k1", keymanager.KeyType.EC_P256⟩).plugin.entries) "k1" = 1 ∧
    lookupE (({ ((testPlugin client1 []).GenerateKey
        ⟨"k1", keymanager.KeyType.EC_P256⟩).plugin with kmsClient := client2 }.GenerateKey
      ⟨"k1", keymanager.KeyType.EC_P256⟩).plugin.entries) "k1" =
      some { KMSKeyID := "awsid2",
             Alias := aliasFromSpireKeyID defaultKeyPrefixConst "k1",
             PublicKey := some { Id := "k1", Typ := keymanager.KeyType.EC_P256,
                                 PkixData := [4, 5, 6] } } ∧
    ("awsid2" : String) ≠ "awsid1" :=
  generateKey_rotation (testPlugin client1 [])
    { ((testPlugin client1 []).GenerateKey
        ⟨"k1", keymanager.KeyType.EC_P256⟩).plugin with kmsClient := client2 }
    "k1" keymanager.KeyType.EC_P256 CustomerMasterKeySpecEccNistP256
    { KeyMetadata := sampleMetadata1 } { KeyMetadata := sampleMetadata2 } pubOut1 pubOut2
    (by simp [keysNodup, testPlugin]) (by decide) (by decide) rfl
    (fun _ => rfl) (fun _ => rfl) (fun _ => rfl) (fun _ => rfl) rfl rfl
    (fun _ => rfl) (fun _ => rfl) (fun _ => rfl) (fun _ => rfl)
    (by decide) (by decide) (by decide) (by decide) (by decide)

/-- C3: when remote key creation succeeds but the subsequent alias creation
(no prior entry) or alias update (rotation) fails, GenerateKey returns an
error and the plugin state — in particular the cache — is exactly as before
the call. -/
theorem generateKey_alias_failure (p : Plugin) (k : String) (T : keymanager.KeyType)
    (spec : CustomerMasterKeySpec) (ck : CreateKeyOutput) (pub : GetPublicKeyOutput)
    (ea : String)
    (hk : k ≠ "") (hT : T ≠ keymanager.KeyType.UNSPECIFIED_KEY_TYPE)
    (hspec : keySpecFromKeyType T = .ok spec)
    (hc : ∀ i, p.kmsClient.CreateKey i = .ok ck)
    (hg : ∀ i, p.kmsClient.GetPublicKey i = .ok pub) :
    (lookupE p.entries k = none → (∀ i, p.kmsClient.CreateAlias i = .error ea) →
      (p.GenerateKey ⟨k, T⟩).result = .error ("failed to create alias: " ++ ea) ∧
      (p.GenerateKey ⟨k, T⟩).plugin = p) ∧
    (∀ old, lookupE p.entries k = some old →
      (∀ i, p.kmsClient.UpdateAlias i = .error ea) →
      (p.GenerateKey ⟨k, T⟩).result = .error ("failed to update alias: " ++ ea) ∧
      (p.GenerateKey ⟨k, T⟩).plugin = p) := by
  have hck := createKey_ok p k T spec ck pub hspec hc hg
  constructor
  · intro hnone hca
    simp [Plugin.GenerateKey, hk, hT, hck, Plugin.entry, hnone, hca]
  · intro old hsome hua
    simp [Plugin.GenerateKey, hk, hT, hck, Plugin.entry, hsome, hua]

/-- C3 witness: with a client whose alias operations are denied, a fresh
generation and a rotation both fail and leave the cache untouched. -/
theorem generateKey_alias_failure_witness :
    (((testPlugin aliasFailClient []).GenerateKey
        ⟨"k1", keymanager.KeyType.EC_P256⟩).result =
      .error ("failed to create alias: " ++ "denied") ∧
     ((testPlugin aliasFailClient []).GenerateKey
        ⟨"k1", keymanager.KeyType.EC_P256⟩).plugin = testPlugin aliasFailClient []) ∧
    (((testPlugin aliasFailClient [("k0", sampleEntry)]).GenerateKey
        ⟨"k0", keymanager.KeyType.EC_P256⟩).result =
      .error ("failed to update alias: " ++ "denied") ∧
     ((testPlugin aliasFailClient [("k0", sampleEntry)]).GenerateKey
        ⟨"k0", keymanager.KeyType.EC_P256⟩).plugin =
      testPlugin aliasFailClient [("k0", sampleEntry)]) :=
  ⟨(generateKey_alias_failure (testPlugin aliasFailClient []) "k1"
      keymanager.KeyType.EC_P256 CustomerMasterKeySpecEccNistP256
      { KeyMetadata := sampleMetadata1 } pubOut1 "denied"
      (by decide) (by decide) rfl (fun _ => rfl) (fun _ => rfl)).1 rfl (fun _ => rfl),
   (generateKey_alias_failure (testPlugin aliasFailClient [("k0", sampleEntry)]) "k0"
      keymanager.KeyType.EC_P256 CustomerMasterKeySpecEccNistP256
      { KeyMetadata := sampleMetadata1 } pubOut1 "denied"
      (by decide) (by decide) rfl (fun _ => rfl) (fun _ => rfl)).2
      sampleEntry rfl (fun _ => rfl)⟩

/-- C2: during reconciliation, for a listed alias/key pair: a disabled key is
skipped, an alias that does not decode under the configured prefix is
skipped, an unsupported remote key spec is skipped — all without failing the
page — while a DescribeKey failure or a GetPublicKey failure aborts the page
with an error. -/
theorem buildKeyEntry_skip_vs_fail (p : Plugin) (al kid : String) :
    (∀ e, p.kmsClient.DescribeKey { KeyId := al } = .error e →
      (p.buildKeyEntry al kid).1 = .error ("failed to describe key: " ++ e)) ∧
    (∀ resp, p.kmsClient.DescribeKey { KeyId := al } = .ok resp →
      resp.KeyMetadata.Enabled = false →
      (p.buildKeyEntry al kid).1 = .ok none) ∧
    (∀ resp, p.kmsClient.DescribeKey { KeyId := al } = .ok resp →
      resp.KeyMetadata.Enabled = true →
      isOkE (p.spireKeyIDFromAlias al) = false →
      (p.buildKeyEntry al kid).1 = .ok none) ∧
    (∀ resp sk, p.kmsClient.DescribeKey { KeyId := al } = .ok resp →
      resp.KeyMetadata.Enabled = true →
      p.spireKeyIDFromAlias al = .ok sk →
      isOkE (keyTypeFromKeySpec resp.KeyMetadata.CustomerMasterKeySpec) = false →
      (p.buildKeyEntry al kid).1 = .ok none) ∧
    (∀ resp sk kt e, p.kmsClient.DescribeKey { KeyId := al } = .ok resp →
      resp.KeyMetadata.Enabled = true →
      p.spireKeyIDFromAlias al = .ok sk →
      keyTypeFromKeySpec resp.KeyMetadata.CustomerMasterKeySpec = .ok kt →
      p.kmsClient.GetPublicKey { KeyId := al } = .error e →
      (p.buildKeyEntry al kid).1 = .error ("failed to get public key: " ++ e)) ∧
    (∀ resp, p.kmsClient.ListAliases { Marker := none } = .ok resp →
      resp.Aliases = [{ AliasName := some al, TargetKeyId := some kid }] →
      (p.buildKeyEntry al kid).1 = .ok none →
      (p.fetchAliasesPage none).1 = .ok resp.NextMarker ∧
      (p.fetchAliasesPage none).2.1 = p) ∧
    (∀ resp e, p.kmsClient.ListAliases { Marker := none } = .ok resp →
      resp.Aliases = [{ AliasName := some al, TargetKeyId := some kid }] →
      (p.buildKeyEntry al kid).1 = .error e →
      (p.fetchAliasesPage none).1 = .error ("failed to process KMS key: " ++ e)) := by
  refine ⟨?_, ?_, ?_, ?_, ?_, ?_, ?_⟩
  · intro e hD
    simp [Plugin.buildKeyEntry, hD]
  · intro resp hD hEn
    simp [Plugin.buildKeyEntry, hD, hEn]
  · intro resp hD hEn hdec
    obtain ⟨m, hm⟩ := (isOkE_false_iff _).mp hdec
    simp [Plugin.buildKeyEntry, hD, hEn, hm]
  · intro resp sk hD hEn hdec hkt
    obtain ⟨m, hm⟩ := (isOkE_false_iff _).mp hkt
    simp [Plugin.buildKeyEntry, hD, hEn, hdec, hm]
  · intro resp sk kt e hD hEn hdec hkt hG
    simp [Plugin.buildKeyEntry, hD, hEn, hdec, hkt, hG]
  · intro resp hla hones hskip
    rcases hbe : p.buildKeyEntry al kid with ⟨r, calls⟩
    rw [hbe] at hskip
    simp only at hskip
    subst hskip
    constructor <;>
      simp [Plugin.fetchAliasesPage, hla, hones, Plugin.processAliases, hbe]
  · intro resp e hla hones hfail
    rcases hbe : p.buildKeyEntry al kid with ⟨r, calls⟩
    rw [hbe] at hfail
    simp only at hfail
    subst hfail
    simp [Plugin.fetchAliasesPage, hla, hones, Plugin.processAliases, hbe]

/-- C2 witness: a disabled key is skipped and its page succeeds with the cache
unchanged; a failing GetPublicKey aborts the page with an error. -/
theorem buildKeyEntry_skip_vs_fail_witness :
    ((testPlugin disabledClient []).buildKeyEntry "alias/SPIRE_SERVER_KEY/k1" "awsid1").1 =
      .ok none ∧
    ((testPlugin disabledClient []).fetchAliasesPage none).1 = .ok none ∧
    ((testPlugin disabledClient []).fetchAliasesPage none).2.1 = testPlugin disabledClient [] ∧
    ((testPlugin pubFailClient []).buildKeyEntry "alias/SPIRE_SERVER_KEY/k1" "awsid1").1 =
      .error ("failed to get public key: " ++ "down") ∧
    ((testPlugin pubFailClient []).fetchAliasesPage none).1 =
      .error ("failed to process KMS key: " ++ ("failed to get public key: " ++ "down")) := by
  have hskip := (buildKeyEntry_skip_vs_fail (testPlugin disabledClient [])
    "alias/SPIRE_SERVER_KEY/k1" "awsid1").2.1
    { KeyMetadata := { KeyId := "awsid1", Enabled := false,
                       CustomerMasterKeySpec := CustomerMasterKeySpecEccNistP256 } }
    rfl rfl
  have hpage := (buildKeyEntry_skip_vs_fail (testPlugin disabledClient [])
    "alias/SPIRE_SERVER_KEY/k1" "awsid1").2.2.2.2.2.1 laOne rfl rfl hskip
  have hfatal := (buildKeyEntry_skip_vs_fail (testPlugin pubFailClient [])
    "alias/SPIRE_SERVER_KEY/k1" "awsid1").2.2.2.2.1
    { KeyMetadata := sampleMetadata1 } "k1" keymanager.KeyType.EC_P256 "down"
    rfl rfl rfl rfl rfl
  have hfpage := (buildKeyEntry_skip_vs_fail (testPlugin pubFailClient [])
    "alias/SPIRE_SERVER_KEY/k1" "awsid1").2.2.2.2.2.2 laOne
    ("failed to get public key: " ++ "down") rfl rfl hfatal
  exact ⟨hskip, hpage.1, hpage.2, hfatal, hfpage⟩

/-! ## Lemmas for configuration: entries are never removed -/

theorem setEntry_lookup_mono (p : Plugin) (k' : String) (e : keyEntry) (k : String)
    (h : (lookupE p.entries k).isSome = true) :
    (lookupE (p.setEntry k' e).2.entries k).isSome = true := by
  rcases hpk : e.PublicKey with _ | pk
  · simp only [Plugin.setEntry, hpk]
    split_ifs <;> exact h
  · simp only [Plugin.setEntry, hpk]
    split_ifs <;> try exact h
    show (lookupE (insertE p.entries k' e) k).isSome = true
    rw [lookupE_insertE]
    by_cases hkk : k' = k
    · simp [hkk]
    · simp [hkk, h]

theorem processAliases_lookup_mono (p : Plugin) (l : List AliasListEntry) (k : String)
    (h : (lookupE p.entries k).isSome = true) :
    (lookupE (p.processAliases l).2.1.entries k).isSome = true := by
  induction l generalizing p with
  | nil => exact h
  | cons a rest ih =>
    rcases a with ⟨an, tk⟩
    cases an with
    | none => simpa [Plugin.processAliases] using ih p h
    | some name =>
      cases tk with
      | none => simpa [Plugin.processAliases] using ih p h
      | some target =>
        rcases hbe : p.buildKeyEntry name target with ⟨r, calls⟩
        rcases r with e' | oe
        · simpa [Plugin.processAliases, hbe] using h
        · rcases oe with _ | entry
          · rcases hpa : p.processAliases rest with ⟨r2, p2, cs2⟩
            have := ih p h
            rw [hpa] at this
            simpa [Plugin.processAliases, hbe, hpa] using this
          · rcases hpke : entry.PublicKey with _ | pk
            · simpa [Plugin.processAliases, hbe, hpke] using h
            · rcases hse : p.setEntry pk.Id entry with ⟨r3, p3⟩
              have hmono := setEntry_lookup_mono p pk.Id entry k h
              rw [hse] at hmono
              rcases r3 with e3 | u3
              · simpa [Plugin.processAliases, hbe, hpke, hse] using hmono
              · rcases hpa : p3.processAliases rest with ⟨r4, p4, cs4⟩
                have := ih p3 hmono
                rw [hpa] at this
                simpa [Plugin.processAliases, hbe, hpke, hse, hpa] using this

theorem fetchAliasesPage_lookup_mono (p : Plugin) (marker : Option String) (k : String)
    (h : (lookupE p.entries k).isSome = true) :
    (lookupE (p.fetchAliasesPage marker).2.1.entries k).isSome = true := by
  cases hla : p.kmsClient.ListAliases { Marker := marker } with
  | error e => simpa [Plugin.fetchAliasesPage, hla] using h
  | ok resp =>
    rcases hpa : p.processAliases resp.Aliases with ⟨r, p', cs⟩
    have hm := processAliases_lookup_mono p resp.Aliases k h
    rw [hpa] at hm
    rcases r with e | u <;> simpa [Plugin.fetchAliasesPage, hla, hpa] using hm

theorem configureLoop_lookup_mono (fuel : Nat) :
    ∀ (p : Plugin) (marker : Option String) (k : String),
      (lookupE p.entries k).isSome = true →
      (lookupE (p.configureLoop fuel marker).2.entries k).isSome = true := by
  induction fuel with
  | zero => intro p marker k h; exact h
  | succ f ih =>
    intro p marker k h
    rcases hfp : p.fetchAliasesPage marker with ⟨r, p', cs⟩
    have hm := fetchAliasesPage_lookup_mono p marker k h
    rw [hfp] at hm
    rcases r with e | om
    · simpa [Plugin.configureLoop, hfp] using hm
    · rcases om with _ | m
      · simpa [Plugin.configureLoop, hfp] using hm
      · have := ih p' (some m) k hm
        simpa [Plugin.configureLoop, hfp] using this

/-- C9 (amended): the cache is created empty at plugin construction
(`newPlugin`), not at configuration: `Configure` never removes entries —
every key bound in the cache before the call is still bound afterwards
(reconciliation adds or overwrites bindings, and entries from before the call
are carried over rather than cleared). -/
theorem configure_preserves_entries :
    (∀ nc, (newPlugin nc).entries = []) ∧
    (∀ (p : Plugin) (fuel : Nat) (config : Config) (k : String),
      (lookupE p.entries k).isSome = true →
      (lookupE (p.Configure fuel config).2.entries k).isSome = true) := by
  refine ⟨fun _ => rfl, ?_⟩
  intro p fuel config k h
  cases hvc : validateConfig config with
  | error e => simpa [Plugin.Configure, hvc] using h
  | ok cfg =>
    cases hnc : p.newClientHook cfg with
    | error e => simpa [Plugin.Configure, hvc, hnc] using h
    | ok client =>
      have := configureLoop_lookup_mono fuel
        { p with keyPrefix := cfg.KeyPrefix, kmsClient := client } none k h
      simpa [Plugin.Configure, hvc, hnc] using this

/-- C9 witness: a fresh plugin has an empty cache, and a pre-existing entry
survives a successful Configure. -/
theorem configure_preserves_entries_witness :
    (newPlugin (fun _ => .ok client1)).entries = [] ∧
    (lookupE ((testPlugin client1 [("k0", sampleEntry)]).Configure 2
        sampleConfig).2.entries "k0").isSome = true :=
  ⟨configure_preserves_entries.1 (fun _ => .ok client1),
   configure_preserves_entries.2 (testPlugin client1 [("k0", sampleEntry)]) 2
     sampleConfig "k0" rfl⟩

/-- C9 counterexample: a Configure call that succeeds (the client lists no
aliases) on a plugin whose cache already holds an entry leaves that entry in
the cache, so the cache does not contain only the entries admitted by that
call's reconciliation pass. -/
theorem configure_counterexample :
    ((testPlugin client1 [("k0", sampleEntry)]).Configure 2 sampleConfig).1 = .ok () ∧
    ((testPlugin client1 [("k0", sampleEntry)]).Configure 2 sampleConfig).2.entries =
      [("k0", sampleEntry)] :=
  ⟨rfl, rfl⟩

end awskms
